import Mathlib

/-!
Verification of the fastmcp middleware dispatch engine, session lifecycle
state machine, and HTTP app-building helpers.

The middleware engine and lifecycle controller themselves are exercised by the
repository's tests (`tests/server/middleware/test_disconnect_middleware.py`)
but their implementation module is not part of the source tree at hand, so the
engine is modelled from the specification (each such definition says so in its
doc comment).  The HTTP helpers (`set_http_request`, `RequestContextMiddleware`,
`setup_auth_middleware_and_routes`, `create_base_app`) are embedded directly
from `src/fastmcp/server/http.py`.
-/

namespace FastMCP

/-- Modelled from the spec: the closed enumeration of event kinds carried by a
Message Envelope (`Initialize`, `Request`, `Notification`, `Disconnect`); the
constructor `Init` stands for the Initialize kind. -/
inductive EventKind where
  | Init
  | Request
  | Notification
  | Disconnect
  deriving DecidableEq, Repr

/-- Modelled from the spec: a Message Envelope carries exactly one event kind
and an event-specific payload, null (`none`) for Disconnect.  The payload is
abstracted to a number (client metadata for the Initialize kind). -/
structure Envelope where
  kind : EventKind
  payload : Option Nat
  deriving DecidableEq, Repr

/-- Observable events recorded while a pipeline runs: a hook entering, a hook
unwinding, and the terminal handler running. -/
inductive Event where
  | enter (i : Nat)
  | exit (i : Nat)
  | handler
  deriving DecidableEq, Repr

/-- An error token raised by an interceptor or handler. -/
abbrev Err := Nat

/-- The trace of observable events, in the order they happened. -/
abbrev Trace := List Event

/-- The result value produced by a terminal handler. -/
abbrev HandlerResult := Nat

/-- Modelled from the spec: a Continuation is a single-argument function from
an Envelope to a result or an error; effects are made explicit by threading
the event trace. -/
abbrev Continuation := Envelope → Trace → Except Err HandlerResult × Trace

/-- The behaviours an interceptor hook can have in this model: record entry,
call the continuation and record the unwind (`record`); raise before calling
the continuation (`raiseBefore`); call the continuation and recover from a
downstream error with a default result (`recover`). -/
inductive HookSpec where
  | record (i : Nat)
  | raiseBefore (e : Err)
  | recover (d : HandlerResult)
  deriving DecidableEq, Repr

/-- Modelled from the spec: `bind` selects the interceptor's hook for the
current event kind and falls back to pure forwarding (`return
continuation(envelope)`) when the hook is absent. -/
def applyHook : Option HookSpec → Continuation → Continuation
  | none, k => k
  | some (HookSpec.record i), k => fun env tr =>
      match k env (tr ++ [Event.enter i]) with
      | (Except.ok r, tr2) => (Except.ok r, tr2 ++ [Event.exit i])
      | (Except.error e, tr2) => (Except.error e, tr2)
  | some (HookSpec.raiseBefore e), _ => fun _ tr => (Except.error e, tr)
  | some (HookSpec.recover d), k => fun env tr =>
      match k env tr with
      | (Except.ok r, tr2) => (Except.ok r, tr2)
      | (Except.error _, tr2) => (Except.ok d, tr2)

/-- Modelled from the spec: an Interceptor is polymorphic over event kinds,
exposing at most one hook per kind (`none` means the hook is not overridden
and defaults to forwarding). -/
structure Interceptor where
  hooks : EventKind → Option HookSpec

/-- Modelled from the spec: `hook_for(kind)` selects the interceptor's hook
for one event kind. -/
def Interceptor.hookFor (I : Interceptor) (k : EventKind) : Option HookSpec :=
  I.hooks k

/-- Modelled from the spec: the Pipeline Builder.  Starting from the terminal
handler `H`, wrap with `bind(I[i].hook_for(kind), chain)` for `i` from `n-1`
down to `0`, so the outermost layer is the first-registered interceptor. -/
def buildPipeline (regs : List Interceptor) (kind : EventKind) (H : Continuation) :
    Continuation :=
  regs.foldr (fun I chain => applyHook (I.hookFor kind) chain) H

/-- An order-recording interceptor: on every kind it records entry, calls the
continuation, and records its unwind. -/
def recordingInterceptor (i : Nat) : Interceptor :=
  ⟨fun _ => some (HookSpec.record i)⟩

/-- An interceptor that raises error `e` before calling its continuation, on
every kind. -/
def raisingInterceptor (e : Err) : Interceptor :=
  ⟨fun _ => some (HookSpec.raiseBefore e)⟩

/-- An interceptor that wraps its continuation call in its own recovery,
turning a downstream error into the default result `d`. -/
def recoveringInterceptor (d : HandlerResult) : Interceptor :=
  ⟨fun _ => some (HookSpec.recover d)⟩

/-- An interceptor that overrides no hook at all. -/
def noopInterceptor : Interceptor :=
  ⟨fun _ => none⟩

/-- A terminal handler that records its own visit and succeeds. -/
def recordingHandler : Continuation :=
  fun _ tr => (Except.ok 0, tr ++ [Event.handler])

/-- Modelled from the spec: the lifecycle states of a Session. -/
inductive SessionState where
  | Unconnected
  | Initializing
  | Active
  | Disconnecting
  | Closed
  deriving DecidableEq, Repr

/-- Modelled from the spec: a Session record holds the lifecycle state and the
client metadata captured at handshake time, nullable until set. -/
structure Session where
  state : SessionState
  clientMeta : Option Nat
  deriving DecidableEq, Repr

/-- Modelled from the spec: the error taxonomy crossing the Dispatch Facade
boundary — `protocolError` for malformed session lifecycle, `unknownSession`
for a message to a session not in the Active state, and `interceptorError`
wrapping an error raised during chain execution. -/
inductive FacadeErr where
  | protocolError
  | unknownSession
  | interceptorError (e : Err)
  deriving DecidableEq, Repr

/-- Modelled from the spec: the Dispatch Facade's message entry point, merging
`onConnect-or-first-message` and `onMessage`.  An Initialize envelope for an
Unconnected session runs the Initialize chain and, on success, moves the
session to Active and stamps the client metadata; any other Initialize is a
`protocolError`, as is a first message that is not Initialize.  Disconnect is
a transport signal, not a protocol message.  Request and Notification
envelopes run the pipeline only when the session is Active; otherwise the
facade fails with `unknownSession`.  A chain error propagates to the caller
as `interceptorError`. -/
def onMessage (regs : List Interceptor) (resolve : EventKind → Continuation)
    (s : Session) (env : Envelope) (tr : Trace) :
    Except FacadeErr HandlerResult × Session × Trace :=
  match env.kind, s.state with
  | EventKind.Init, SessionState.Unconnected =>
      match buildPipeline regs EventKind.Init (resolve EventKind.Init) env tr with
      | (Except.ok r, tr2) =>
          (Except.ok r, ⟨SessionState.Active, env.payload⟩, tr2)
      | (Except.error e, tr2) =>
          (Except.error (FacadeErr.interceptorError e),
            { s with state := SessionState.Initializing }, tr2)
  | EventKind.Init, _ => (Except.error FacadeErr.protocolError, s, tr)
  | EventKind.Disconnect, _ => (Except.error FacadeErr.protocolError, s, tr)
  | _, SessionState.Unconnected => (Except.error FacadeErr.protocolError, s, tr)
  | k, SessionState.Active =>
      match buildPipeline regs k (resolve k) env tr with
      | (Except.ok r, tr2) => (Except.ok r, s, tr2)
      | (Except.error e, tr2) =>
          (Except.error (FacadeErr.interceptorError e), s, tr2)
  | _, _ => (Except.error FacadeErr.unknownSession, s, tr)

/-- Modelled from the spec: the Dispatch Facade's `onDisconnect`.  A session
already Closed makes the signal a no-op.  Otherwise the facade builds and
invokes the Disconnect chain on a null-payload envelope and transitions the
session to Closed regardless of the chain's outcome; a chain error is
returned as a diagnostic (`some e`), never re-raised. -/
def onDisconnect (regs : List Interceptor) (resolve : EventKind → Continuation)
    (s : Session) (tr : Trace) : Option Err × Session × Trace :=
  if s.state = SessionState.Closed then
    (none, s, tr)
  else
    match buildPipeline regs EventKind.Disconnect (resolve EventKind.Disconnect)
        ⟨EventKind.Disconnect, none⟩ tr with
    | (Except.ok _, tr2) => (none, { s with state := SessionState.Closed }, tr2)
    | (Except.error e, tr2) => (some e, { s with state := SessionState.Closed }, tr2)

namespace Http

/-- An ASGI scope, reduced to the field the embedded code inspects:
`scope["type"]`. -/
structure Scope where
  type : String
  deriving DecidableEq, Repr

/-- A Starlette `Request`; `Request(scope)` wraps the scope it was built
from. -/
structure Request where
  scope : Scope
  deriving DecidableEq, Repr

/-- The value of the `_current_http_request` ContextVar (default `None`). -/
abbrev Ctx := Option Request

/-- How one ASGI app call finishes: normally or by raising. -/
inductive AppResult where
  | ok
  | exn
  deriving DecidableEq, Repr

/-- An ASGI app, modelled as a function of the scope and the current value of
the `_current_http_request` ContextVar, returning the ContextVar value it
leaves behind and how the call finished. -/
abbrev App := Scope → Ctx → Ctx × AppResult

/-- The `set_http_request` context manager from `http.py`: `set` returns a
token saving the previous value, the body runs with the new request stored,
and the `finally` block resets the ContextVar to the token's saved value —
also when the body raises, and whatever the body did to the variable. -/
def set_http_request (request : Request) (body : Ctx → Ctx × AppResult)
    (ctx : Ctx) : Ctx × AppResult :=
  let token := ctx
  let r := body (some request)
  (token, r.2)

/-- `RequestContextMiddleware.__call__` from `http.py`: for an `"http"` scope
it runs the inner app inside `set_http_request(Request(scope))`; for any
other scope it calls the inner app directly, untouched. -/
def RequestContextMiddleware.call (app : App) : App :=
  fun scope ctx =>
    if scope.type = "http" then
      set_http_request ⟨scope⟩ (fun c => app scope c) ctx
    else
      app scope ctx

/-- The pieces of middleware this embedding distinguishes; `other` stands for
any caller-supplied middleware entry. -/
inductive MiddlewareEntry where
  | authenticationMiddleware
  | authContextMiddleware
  | requestContextMiddleware
  | other (i : Nat)
  deriving DecidableEq, Repr

/-- An auth route produced by the external `create_auth_routes`, abstracted. -/
abbrev AuthRoute := Nat

/-- The auth argument of `setup_auth_middleware_and_routes`, reduced to what
the function inspects: whether `hasattr(auth, "issuer_url")` holds, and the
value of `required_scopes` (`none` models both an absent attribute, which
`getattr(..., None)` turns into `None`, and an attribute holding `None`). -/
structure AuthObj where
  hasIssuerUrl : Bool
  requiredScopes : Option (List String)
  deriving DecidableEq, Repr

/-- The Python idiom `x or []` applied to a nullable list: `None` becomes the
empty list, and a list is kept (an empty list is replaced by the equal empty
list). -/
def orEmptyList : Option (List String) → List String
  | none => []
  | some l => l

/-- `setup_auth_middleware_and_routes` from `http.py`.  The external
`create_auth_routes` call is a parameter.  The middleware list is always
`[AuthenticationMiddleware, AuthContextMiddleware]`; auth routes are created
only in the `hasattr(auth, "issuer_url")` branch; `required_scopes` is
`auth.required_scopes or []` there and `getattr(auth, "required_scopes",
None) or []` otherwise. -/
def setup_auth_middleware_and_routes
    (createAuthRoutes : AuthObj → List AuthRoute) (auth : AuthObj) :
    List MiddlewareEntry × List AuthRoute × List String :=
  let middleware := [MiddlewareEntry.authenticationMiddleware,
                     MiddlewareEntry.authContextMiddleware]
  if auth.hasIssuerUrl then
    (middleware, createAuthRoutes auth, orEmptyList auth.requiredScopes)
  else
    (middleware, [], orEmptyList auth.requiredScopes)

/-- A store of Python list objects addressed by reference, used to make the
in-place mutation performed by `create_base_app` observable. -/
abbrev MiddlewareStore := Nat → List MiddlewareEntry

/-- The app returned by `create_base_app`, keeping the reference to the very
middleware list object it was given (no copy is made). -/
structure BaseApp where
  middlewareRef : Nat
  deriving DecidableEq, Repr

/-- `create_base_app` from `http.py`: it executes
`middleware.append(Middleware(RequestContextMiddleware))` on the caller's
list object — an in-place mutation, visible through the store — and returns
the app built over that same list reference. -/
def create_base_app (store : MiddlewareStore) (mref : Nat) :
    BaseApp × MiddlewareStore :=
  let store2 : MiddlewareStore := fun r =>
    if r = mref then store r ++ [MiddlewareEntry.requestContextMiddleware]
    else store r
  (⟨mref⟩, store2)

/-- The ASGI stack Starlette builds around its router from a middleware
list. -/
inductive AsgiStack where
  | router
  | wrap (m : MiddlewareEntry) (inner : AsgiStack)
  deriving DecidableEq, Repr

/-- Models the external Starlette collaborator `build_middleware_stack`: the
user middleware list wraps the router via `for m in reversed(middleware):
app = m(app)`, so the first entry of the list becomes the outermost wrapper
and the last entry the innermost. -/
def build_middleware_stack (ms : List MiddlewareEntry) : AsgiStack :=
  ms.foldr (fun m acc => AsgiStack.wrap m acc) AsgiStack.router

/-- The outermost middleware of a built stack, if any. -/
def outermost : AsgiStack → Option MiddlewareEntry
  | AsgiStack.router => none
  | AsgiStack.wrap m _ => some m

end Http

/-! ## Helper lemmas about the pipeline and the lifecycle facade -/

theorem buildPipeline_nil (kind : EventKind) (H : Continuation) :
    buildPipeline [] kind H = H := rfl

theorem buildPipeline_cons (I : Interceptor) (regs : List Interceptor)
    (kind : EventKind) (H : Continuation) :
    buildPipeline (I :: regs) kind H
      = applyHook (I.hookFor kind) (buildPipeline regs kind H) := rfl

theorem buildPipeline_record_trace (ids : List Nat) (kind : EventKind)
    (env : Envelope) (tr : Trace) :
    buildPipeline (ids.map recordingInterceptor) kind recordingHandler env tr
      = (Except.ok 0,
          tr ++ (ids.map Event.enter ++ Event.handler :: ids.reverse.map Event.exit)) := by
  induction ids generalizing tr with
  | nil => simp [buildPipeline, recordingHandler]
  | cons i ids ih =>
      simp only [List.map_cons, buildPipeline_cons, recordingInterceptor,
        Interceptor.hookFor, applyHook, ih, List.reverse_cons, List.map_append,
        List.map_cons, List.map_nil, List.append_assoc, List.cons_append,
        List.nil_append]

theorem buildPipeline_raise_trace (pre suf : List Nat) (e : Err)
    (kind : EventKind) (H : Continuation) (env : Envelope) (tr : Trace) :
    buildPipeline
        (pre.map recordingInterceptor
          ++ raisingInterceptor e :: suf.map recordingInterceptor) kind H env tr
      = (Except.error e, tr ++ pre.map Event.enter) := by
  induction pre generalizing tr with
  | nil =>
      simp [buildPipeline_cons, raisingInterceptor, Interceptor.hookFor, applyHook]
  | cons i pre ih =>
      simp only [List.map_cons, List.cons_append, buildPipeline_cons,
        recordingInterceptor, Interceptor.hookFor, applyHook, ih,
        List.append_assoc, List.singleton_append, List.nil_append]

theorem onDisconnect_state_closed (regs : List Interceptor)
    (resolve : EventKind → Continuation) (s : Session) (tr : Trace) :
    (onDisconnect regs resolve s tr).2.1.state = SessionState.Closed := by
  unfold onDisconnect
  by_cases h : s.state = SessionState.Closed
  · simp [h]
  · simp only [h, if_neg, if_false]
    rcases buildPipeline regs EventKind.Disconnect (resolve EventKind.Disconnect)
        ⟨EventKind.Disconnect, none⟩ tr with ⟨r, tr2⟩
    cases r <;> simp

theorem buildPipeline_of_no_hooks : ∀ (regs : List Interceptor) (kind : EventKind),
    (∀ I ∈ regs, I.hooks kind = none) →
    ∀ (H : Continuation) (env : Envelope) (tr : Trace),
      buildPipeline regs kind H env tr = H env tr := by
  intro regs kind
  induction regs with
  | nil => intro _ H env tr; rfl
  | cons I rest ih =>
      intro h H env tr
      have hI : I.hooks kind = none := h I (List.mem_cons_self I rest)
      simp only [buildPipeline_cons, Interceptor.hookFor, hI, applyHook]
      exact ih (fun J hJ => h J (List.mem_cons_of_mem I hJ)) H env tr

theorem buildPipeline_congr : ∀ (regs regs2 : List Interceptor) (kind : EventKind),
    regs.map (fun I => I.hooks kind) = regs2.map (fun I => I.hooks kind) →
    ∀ (H : Continuation), buildPipeline regs kind H = buildPipeline regs2 kind H := by
  intro regs
  induction regs with
  | nil =>
      intro regs2 kind h H
      cases regs2 with
      | nil => rfl
      | cons J rest2 => simp at h
  | cons I rest ih =>
      intro regs2 kind h H
      cases regs2 with
      | nil => simp at h
      | cons J rest2 =>
          simp only [List.map_cons, List.cons.injEq] at h
          obtain ⟨h1, h2⟩ := h
          simp only [buildPipeline_cons, Interceptor.hookFor, h1,
            ih rest2 kind h2 H]

/-! ## Claim theorems -/

/-- C1: for every registration order of interceptors and every Request
envelope, when every interceptor calls its continuation, the composed
pipeline visits hooks in registration order and then the terminal handler on
the way in, and unwinds in the exact reverse order on the way out — the
recorded trace is the entries in list order, the handler, then the unwinds in
reversed list order. -/
theorem pipeline_hooks_in_registration_order (ids : List Nat) (env : Envelope)
    (tr : Trace) (h : env.kind = EventKind.Request) :
    buildPipeline (ids.map recordingInterceptor) env.kind recordingHandler env tr
      = (Except.ok 0,
          tr ++ (ids.map Event.enter ++ Event.handler :: ids.reverse.map Event.exit)) := by
  rw [h]
  exact buildPipeline_record_trace ids EventKind.Request env tr

theorem pipeline_hooks_in_registration_order_witness :
    buildPipeline (List.map recordingInterceptor [1, 2, 3]) EventKind.Request
        recordingHandler ⟨EventKind.Request, some 5⟩ []
      = (Except.ok 0,
          [Event.enter 1, Event.enter 2, Event.enter 3, Event.handler,
            Event.exit 3, Event.exit 2, Event.exit 1]) := by
  have h := pipeline_hooks_in_registration_order [1, 2, 3]
    ⟨EventKind.Request, some 5⟩ [] rfl
  simpa using h

/-- C2: if interceptor `Ik` raises an error before calling its continuation,
no later-registered hook and not the terminal handler is ever invoked (the
trace holds only the entries of the earlier interceptors and the result does
not depend on the suffix or the handler), and the error propagates outward
through the earlier interceptors — unless an outer interceptor wraps its
continuation call in its own recovery, in which case it catches the error. -/
theorem error_before_continuation_short_circuits (pre suf : List Nat) (e : Err)
    (d : HandlerResult) (kind : EventKind) (H : Continuation) (env : Envelope)
    (tr : Trace) :
    buildPipeline
        (pre.map recordingInterceptor
          ++ raisingInterceptor e :: suf.map recordingInterceptor) kind H env tr
      = (Except.error e, tr ++ pre.map Event.enter)
    ∧ buildPipeline
        (recoveringInterceptor d
          :: (pre.map recordingInterceptor
              ++ raisingInterceptor e :: suf.map recordingInterceptor)) kind H env tr
      = (Except.ok d, tr ++ pre.map Event.enter) := by
  refine ⟨buildPipeline_raise_trace pre suf e kind H env tr, ?_⟩
  simp only [buildPipeline_cons, recoveringInterceptor, Interceptor.hookFor,
    applyHook, buildPipeline_raise_trace]

/-- C3: once a session is Closed, any further disconnect signal is a no-op:
re-running `onDisconnect` on the session and trace left by a first
`onDisconnect` re-invokes no hook (the trace is unchanged), reports no
diagnostic, and leaves the session as it was. -/
theorem disconnect_chain_at_most_once (regs : List Interceptor)
    (resolve : EventKind → Continuation) (s : Session) (tr : Trace) :
    onDisconnect regs resolve (onDisconnect regs resolve s tr).2.1
        (onDisconnect regs resolve s tr).2.2
      = (none, (onDisconnect regs resolve s tr).2.1,
          (onDisconnect regs resolve s tr).2.2) := by
  have h := onDisconnect_state_closed regs resolve s tr
  rcases hp : onDisconnect regs resolve s tr with ⟨d, s2, tr2⟩
  rw [hp] at h
  simp only at h
  simp [onDisconnect, h]

/-- C4: disconnect-chain errors are never re-raised to the caller (the facade
returns them as a diagnostic value) and never prevent the transition to
Closed: a chain whose interceptor raises still leaves the session Closed with
the error surfaced as `some e`, and for every chain whatsoever the session
ends Closed. -/
theorem disconnect_errors_become_diagnostics_and_session_closes
    (pre suf : List Nat) (e : Err) (resolve : EventKind → Continuation)
    (s : Session) (tr : Trace) (h : s.state ≠ SessionState.Closed) :
    onDisconnect
        (pre.map recordingInterceptor
          ++ raisingInterceptor e :: suf.map recordingInterceptor) resolve s tr
      = (some e, { s with state := SessionState.Closed }, tr ++ pre.map Event.enter)
    ∧ ∀ (regs : List Interceptor),
        (onDisconnect regs resolve s tr).2.1.state = SessionState.Closed := by
  constructor
  · simp [onDisconnect, h, buildPipeline_raise_trace]
  · intro regs
    exact onDisconnect_state_closed regs resolve s tr

theorem disconnect_errors_become_diagnostics_witness :
    onDisconnect [recordingInterceptor 1, raisingInterceptor 9, recordingInterceptor 2]
        (fun _ => recordingHandler) ⟨SessionState.Active, none⟩ []
      = (some 9, ⟨SessionState.Closed, none⟩, [Event.enter 1]) := by
  have h := disconnect_errors_become_diagnostics_and_session_closes [1] [2] 9
    (fun _ => recordingHandler) ⟨SessionState.Active, none⟩ [] (by decide)
  simpa using h.1

/-- C5: the Initialize chain fires exactly once per session: an
Initialize-kind envelope dispatched for a session already Active fails with
`protocolError` without touching the session or running any hook (the trace
is unchanged); a first message of a new session that is a Request or a
Notification also fails with `protocolError`; and after a successful first
Initialize, redelivering the same Initialize envelope yields `protocolError`
with no hook re-invocation. -/
theorem init_chain_fires_once_and_protocol_errors (regs : List Interceptor)
    (resolve : EventKind → Continuation) (s : Session) (env : Envelope)
    (tr : Trace) :
    (env.kind = EventKind.Init → s.state = SessionState.Active →
        onMessage regs resolve s env tr
          = (Except.error FacadeErr.protocolError, s, tr))
    ∧ (env.kind = EventKind.Request → s.state = SessionState.Unconnected →
        onMessage regs resolve s env tr
          = (Except.error FacadeErr.protocolError, s, tr))
    ∧ (env.kind = EventKind.Notification → s.state = SessionState.Unconnected →
        onMessage regs resolve s env tr
          = (Except.error FacadeErr.protocolError, s, tr))
    ∧ (env.kind = EventKind.Init → s.state = SessionState.Unconnected →
        ∀ (r : HandlerResult) (s2 : Session) (tr2 : Trace),
          onMessage regs resolve s env tr = (Except.ok r, s2, tr2) →
          onMessage regs resolve s2 env tr2
            = (Except.error FacadeErr.protocolError, s2, tr2)) := by
  refine ⟨?_, ?_, ?_, ?_⟩
  · intro hk hs
    simp [onMessage, hk, hs]
  · intro hk hs
    simp [onMessage, hk, hs]
  · intro hk hs
    simp [onMessage, hk, hs]
  · intro hk hs r s2 tr2 hok
    simp only [onMessage, hk, hs] at hok
    rcases hbp : buildPipeline regs EventKind.Init (resolve EventKind.Init) env tr
      with ⟨res, tr3⟩
    rw [hbp] at hok
    cases res with
    | ok v =>
        simp only [Prod.mk.injEq, Except.ok.injEq] at hok
        obtain ⟨h1, h2, h3⟩ := hok
        subst h2
        subst h3
        simp [onMessage, hk]
    | error e2 => simp at hok

theorem init_chain_fires_once_witness :
    onMessage [] (fun _ => recordingHandler) ⟨SessionState.Active, none⟩
        ⟨EventKind.Init, some 1⟩ []
      = (Except.error FacadeErr.protocolError, ⟨SessionState.Active, none⟩, []) :=
  (init_chain_fires_once_and_protocol_errors [] (fun _ => recordingHandler)
    ⟨SessionState.Active, none⟩ ⟨EventKind.Init, some 1⟩ []).1 rfl rfl

/-- C6: an interceptor that does not override the hook for an event kind is
the identity layer for that kind: the default hook returns
`continuation(envelope)` unchanged, and a pipeline made only of such
interceptors is observationally equal to invoking the terminal handler
directly. -/
theorem default_hooks_forward (regs : List Interceptor) (kind : EventKind)
    (H : Continuation) (env : Envelope) (tr : Trace)
    (h : ∀ I ∈ regs, I.hooks kind = none) :
    buildPipeline regs kind H env tr = H env tr
    ∧ ∀ (k : Continuation) (env2 : Envelope) (tr2 : Trace),
        applyHook none k env2 tr2 = k env2 tr2 :=
  ⟨buildPipeline_of_no_hooks regs kind h H env tr, fun _ _ _ => rfl⟩

theorem default_hooks_forward_witness :
    buildPipeline [noopInterceptor, noopInterceptor] EventKind.Request
        recordingHandler ⟨EventKind.Request, none⟩ []
      = recordingHandler ⟨EventKind.Request, none⟩ []
    ∧ applyHook none recordingHandler ⟨EventKind.Request, none⟩ []
      = recordingHandler ⟨EventKind.Request, none⟩ [] := by
  have h := default_hooks_forward [noopInterceptor, noopInterceptor]
    EventKind.Request recordingHandler ⟨EventKind.Request, none⟩ []
    (by intro I hI; simp at hI; subst hI; rfl)
  exact ⟨h.1, h.2 recordingHandler ⟨EventKind.Request, none⟩ []⟩

/-- C7: the Pipeline Builder is deterministic and its result depends only on
the registered hooks for the event kind and the terminal handler: two builds
over registration lists exposing the same hooks produce behaviorally
identical chains — the same result and the same hook visitation trace on
every envelope.  In this model construction is a pure function: no hook can
run during the build, only when the built chain is applied to an envelope
and a trace. -/
theorem pipeline_build_deterministic (regs regs2 : List Interceptor)
    (kind : EventKind) (H : Continuation) (env : Envelope) (tr : Trace)
    (h : regs.map (fun I => I.hooks kind) = regs2.map (fun I => I.hooks kind)) :
    buildPipeline regs kind H env tr = buildPipeline regs2 kind H env tr := by
  rw [buildPipeline_congr regs regs2 kind h H]

theorem pipeline_build_deterministic_witness :
    buildPipeline [recordingInterceptor 1] EventKind.Notification
        recordingHandler ⟨EventKind.Notification, none⟩ []
      = buildPipeline [⟨fun _ => some (HookSpec.record 1)⟩] EventKind.Notification
          recordingHandler ⟨EventKind.Notification, none⟩ [] :=
  pipeline_build_deterministic [recordingInterceptor 1]
    [⟨fun _ => some (HookSpec.record 1)⟩] EventKind.Notification
    recordingHandler ⟨EventKind.Notification, none⟩ [] rfl

/-- C8: for an ASGI call whose scope type is `"http"`,
`RequestContextMiddleware` runs the inner app with the current-request
ContextVar holding the new `Request(scope)` and afterwards resets the
variable to its previous value — whatever the inner app did to it and also
when the inner app raises; for any other scope type the middleware is an
exact pass-through that leaves the variable alone. -/
theorem requestContextMiddleware_frame (app : Http.App) (scope : Http.Scope)
    (ctx : Http.Ctx) :
    (scope.type = "http" →
        Http.RequestContextMiddleware.call app scope ctx
          = (ctx, (app scope (some ⟨scope⟩)).2))
    ∧ (scope.type ≠ "http" →
        Http.RequestContextMiddleware.call app scope ctx = app scope ctx) := by
  constructor
  · intro h
    simp [Http.RequestContextMiddleware.call, Http.set_http_request, h]
  · intro h
    simp [Http.RequestContextMiddleware.call, h]

theorem requestContextMiddleware_frame_witness :
    Http.RequestContextMiddleware.call (fun _ _ => (none, Http.AppResult.exn))
        ⟨"http"⟩ (some ⟨⟨"websocket"⟩⟩)
      = (some ⟨⟨"websocket"⟩⟩, Http.AppResult.exn) := by
  have h := (requestContextMiddleware_frame (fun _ _ => (none, Http.AppResult.exn))
    ⟨"http"⟩ (some ⟨⟨"websocket"⟩⟩)).1 rfl
  simpa using h

/-- C9: `create_base_app` does append a `RequestContextMiddleware` entry as
the last element of the supplied middleware list, mutating the caller's list
object in place (the app keeps the same list reference), but — evaluated at
a list that already holds one middleware entry — the appended entry is NOT
the outermost middleware of the built Starlette stack: the pre-existing
first entry is outermost and `RequestContextMiddleware` ends up innermost,
contradicting the claim and the code's own comment. -/
theorem create_base_app_append_not_outermost :
    (Http.create_base_app (fun _ => [Http.MiddlewareEntry.other 0]) 0).2 0
        = [Http.MiddlewareEntry.other 0, Http.MiddlewareEntry.requestContextMiddleware]
    ∧ (Http.create_base_app (fun _ => [Http.MiddlewareEntry.other 0]) 0).1.middlewareRef = 0
    ∧ Http.outermost
          (Http.build_middleware_stack
            ((Http.create_base_app (fun _ => [Http.MiddlewareEntry.other 0]) 0).2 0))
        = some (Http.MiddlewareEntry.other 0)
    ∧ Http.outermost
          (Http.build_middleware_stack
            ((Http.create_base_app (fun _ => [Http.MiddlewareEntry.other 0]) 0).2 0))
        ≠ some Http.MiddlewareEntry.requestContextMiddleware := by
  refine ⟨rfl, rfl, rfl, ?_⟩
  decide

/-- C10: `setup_auth_middleware_and_routes` always returns exactly the two
middleware entries `AuthenticationMiddleware` then `AuthContextMiddleware`;
its `required_scopes` is always a list, the empty list when the provider
declares no scopes; and the returned auth routes can be non-empty only when
the auth object has an `issuer_url` attribute. -/
theorem setup_auth_shape (car : Http.AuthObj → List Http.AuthRoute)
    (auth : Http.AuthObj) :
    (Http.setup_auth_middleware_and_routes car auth).1
        = [Http.MiddlewareEntry.authenticationMiddleware,
            Http.MiddlewareEntry.authContextMiddleware]
    ∧ (auth.requiredScopes = none →
        (Http.setup_auth_middleware_and_routes car auth).2.2 = [])
    ∧ ((Http.setup_auth_middleware_and_routes car auth).2.1 ≠ [] →
        auth.hasIssuerUrl = true) := by
  refine ⟨?_, ?_, ?_⟩
  · by_cases h : auth.hasIssuerUrl = true <;>
      simp [Http.setup_auth_middleware_and_routes, h]
  · intro hn
    by_cases h : auth.hasIssuerUrl = true <;>
      simp [Http.setup_auth_middleware_and_routes, h, hn, Http.orEmptyList]
  · intro hr
    by_cases h : auth.hasIssuerUrl = true
    · exact h
    · exfalso
      apply hr
      have hf : auth.hasIssuerUrl = false := by simpa using h
      simp [Http.setup_auth_middleware_and_routes, hf]

theorem setup_auth_shape_witness :
    (Http.setup_auth_middleware_and_routes (fun _ => [1]) ⟨true, none⟩).1
        = [Http.MiddlewareEntry.authenticationMiddleware,
            Http.MiddlewareEntry.authContextMiddleware]
    ∧ (Http.setup_auth_middleware_and_routes (fun _ => [1]) ⟨true, none⟩).2.2 = []
    ∧ (⟨true, none⟩ : Http.AuthObj).hasIssuerUrl = true := by
  have h := setup_auth_shape (fun _ => [1]) ⟨true, none⟩
  exact ⟨h.1, h.2.1 rfl, h.2.2 (by decide)⟩

end FastMCP
